import Mathlib

/-!
Shallow embedding of the Food Waste Management System's cleaning /
validation / referential-integrity pipeline (`FoodManagementSystem.py`)
and of the dashboard's identifier auto-assignment (`app.py`).

Tables are lists of rows.  A pandas CSV cell that may be NaN is an
`Option`: `none` models NaN (missing / unparseable).  Identifier columns
are `Option Int` (the source coerces them with `pd.to_numeric` and casts
to `int` inside `drop_na_ids`); `Quantity` is `Option ℚ` because the
source keeps it as a float until the separate `astype(int)` cast, whose
truncation is modelled explicitly.  Parsed dates/timestamps are
`Option Int` (an abstract day / instant; the pipeline only ever tests
them for NaN).
-/

namespace FoodWaste

/-- Characters stripped / collapsed by `str.strip()` and the `\s+`
regex replacement in `clean_text`. -/
def isSpaceChar (c : Char) : Bool :=
  c = ' ' || c = '\t' || c = '\n' || c = '\r' || c = '\x0b' || c = '\x0c'

/-- `str.strip()`: remove leading and trailing whitespace. -/
def stripChars (cs : List Char) : List Char :=
  ((cs.dropWhile isSpaceChar).reverse.dropWhile isSpaceChar).reverse

/-- `.str.replace(r"\s+", " ", regex=True)`: collapse each run of
whitespace characters into a single space.  `prevWs` records whether the
previous character was part of a whitespace run. -/
def collapseWsAux : Bool → List Char → List Char
  | _, [] => []
  | prevWs, c :: cs =>
    if isSpaceChar c then
      if prevWs then collapseWsAux true cs else ' ' :: collapseWsAux true cs
    else c :: collapseWsAux false cs

def collapseWs (cs : List Char) : List Char := collapseWsAux false cs

/-- `str.title()`: a letter that follows a letter is lowercased, a letter
that follows a non-letter is uppercased. -/
def titleAux : Bool → List Char → List Char
  | _, [] => []
  | prevAlpha, c :: cs =>
    (if c.isAlpha then (if prevAlpha then c.toLower else c.toUpper) else c)
      :: titleAux c.isAlpha cs

def titleCase (cs : List Char) : List Char := titleAux false cs

/-- `clean_text(series, title)` applied to one cell.
`series.astype(str)` renders a missing value (NaN) as the literal string
"nan"; then whitespace is stripped and collapsed, and `str.title()` is
applied when `title` is set. -/
def clean_text (v : Option String) (title : Bool) : String :=
  let s : String := match v with | none => "nan" | some t => t
  let cs := collapseWs (stripChars s.toList)
  String.mk (if title then titleCase cs else cs)

/-- Column-name strip used by `rename(columns=lambda c: c.strip())`. -/
def stripStr (s : String) : String := String.mk (stripChars s.toList)

/-! ### Row types (normalized stage, after lines 48–111 of the source) -/

structure ProviderRow where
  Provider_ID : Option Int
  Name : String
  Type_ : String
  Address : String
  City : String
  Contact : String
deriving DecidableEq

structure ReceiverRow where
  Receiver_ID : Option Int
  Name : String
  Type_ : String
  City : String
  Contact : String
deriving DecidableEq

structure FoodRow where
  Food_ID : Option Int
  Food_Name : String
  Quantity : Option ℚ
  Expiry_Date : Option Int
  Provider_ID : Option Int
  Provider_Type : String
  Location : String
  Food_Type : String
  Meal_Type : String
deriving DecidableEq

structure ClaimRow where
  Claim_ID : Option Int
  Food_ID : Option Int
  Receiver_ID : Option Int
  Status : String
  Timestamp : Option Int
deriving DecidableEq

/-! ### Raw row types (as read from CSV, before normalization).
Numeric / date cells are shown after `pd.to_numeric` / `pd.to_datetime`
coercion (`none` = NaN or unparseable); text cells are `Option String`
(`none` = empty CSV cell read as NaN). -/

structure RawProviderRow where
  Provider_ID : Option Int
  Name : Option String
  Type_ : Option String
  Address : Option String
  City : Option String
  Contact : Option String

structure RawReceiverRow where
  Receiver_ID : Option Int
  Name : Option String
  Type_ : Option String
  City : Option String
  Contact : Option String

structure RawFoodRow where
  Food_ID : Option Int
  Food_Name : Option String
  Quantity : Option ℚ
  Expiry_Date : Option Int
  Provider_ID : Option Int
  Provider_Type : Option String
  Location : Option String
  Food_Type : Option String
  Meal_Type : Option String

structure RawClaimRow where
  Claim_ID : Option Int
  Food_ID : Option Int
  Receiver_ID : Option Int
  Status : Option String
  Timestamp : Option Int

/-- Lines 56–61: per-column normalization of a Providers row. -/
def normalizeProvider (r : RawProviderRow) : ProviderRow :=
  { Provider_ID := r.Provider_ID
    Name := clean_text r.Name false
    Type_ := clean_text r.Type_ true
    Address := clean_text r.Address false
    City := clean_text r.City true
    Contact := clean_text r.Contact false }

/-- Lines 70–74: per-column normalization of a Receivers row. -/
def normalizeReceiver (r : RawReceiverRow) : ReceiverRow :=
  { Receiver_ID := r.Receiver_ID
    Name := clean_text r.Name false
    Type_ := clean_text r.Type_ true
    City := clean_text r.City true
    Contact := clean_text r.Contact false }

/-- Lines 86–96: per-column normalization of a Food_Listings row. -/
def normalizeFood (r : RawFoodRow) : FoodRow :=
  { Food_ID := r.Food_ID
    Food_Name := clean_text r.Food_Name true
    Quantity := r.Quantity
    Expiry_Date := r.Expiry_Date
    Provider_ID := r.Provider_ID
    Provider_Type := clean_text r.Provider_Type true
    Location := clean_text r.Location true
    Food_Type := clean_text r.Food_Type true
    Meal_Type := clean_text r.Meal_Type true }

/-- Lines 105–111: per-column normalization of a Claims row. -/
def normalizeClaim (r : RawClaimRow) : ClaimRow :=
  { Claim_ID := r.Claim_ID
    Food_ID := r.Food_ID
    Receiver_ID := r.Receiver_ID
    Status := clean_text r.Status true
    Timestamp := r.Timestamp }

/-- The four normalized tables as they stand after lines 48–111. -/
structure Dataset where
  providers : List ProviderRow
  receivers : List ReceiverRow
  food : List FoodRow
  claims : List ClaimRow
deriving DecidableEq

/-! ### Validation helpers -/

/-- `drop_na_ids(df, id_col, name)` (lines 114–121): drop rows whose id
column is NaN.  The dropped rows are only counted in a printed warning,
not written to any reject artifact.  The source's trailing
`astype(int, errors="ignore")` is the identity here because identifier
columns are already modelled as integers. -/
def drop_na_ids {α : Type} (getId : α → Option Int) (rows : List α) : List α :=
  rows.filter (fun r => (getId r).isSome)

/-- Accumulator for `drop_dupe_keys`: `seen` holds the key values of rows
already encountered.  A row whose key was seen before goes to the second
component (the duplicate reject set, pandas `duplicated(key, keep="first")`);
otherwise the row is kept in the first component. -/
def drop_dupe_keys_aux {α β : Type} [DecidableEq β] (key : α → β) :
    List β → List α → List α × List α
  | _, [] => ([], [])
  | seen, x :: xs =>
    if key x ∈ seen then
      let p := drop_dupe_keys_aux key seen xs
      (p.1, x :: p.2)
    else
      let p := drop_dupe_keys_aux key (key x :: seen) xs
      (x :: p.1, p.2)

/-- `drop_dupe_keys(df, key, name)` (lines 132–138): returns
`(df.drop_duplicates(key, keep="first"), df[df.duplicated(key, keep="first")])`. -/
def drop_dupe_keys {α β : Type} [DecidableEq β] (key : α → β) (rows : List α) :
    List α × List α :=
  drop_dupe_keys_aux key [] rows

/-- `food["Quantity"].isna() | (food["Quantity"] < 0)` (line 146); the
pandas comparison `NaN < 0` is False, so the disjunction is: missing, or
present and negative. -/
def bad_qty_pred (r : FoodRow) : Bool :=
  match r.Quantity with
  | none => true
  | some q => decide (q < 0)

/-- numpy `astype(int)` on a float: truncation toward zero
(T-division of the numerator by the positive denominator). -/
def int_of_rat (q : ℚ) : Int := Int.tdiv q.num q.den

/-- Lookup-map-with-default: the `MAP.get(x, x)` pattern of lines 177–180. -/
def map_get (m : List (String × String)) (x : String) : String :=
  match m.find? (fun p => p.1 == x) with
  | some p => p.2
  | none => x

def PROVIDER_TYPE_MAP : List (String × String) :=
  [("Restaurant", "Restaurant"), ("Grocery Store", "Grocery Store"),
   ("Supermarket", "Supermarket")]

def FOOD_TYPE_MAP : List (String × String) :=
  [("Vegetarian", "Vegetarian"), ("Non-Vegetarian", "Non-Vegetarian"),
   ("Vegan", "Vegan")]

def MEAL_TYPE_MAP : List (String × String) :=
  [("Breakfast", "Breakfast"), ("Lunch", "Lunch"), ("Dinner", "Dinner"),
   ("Snacks", "Snacks")]

def STATUS_MAP : List (String × String) :=
  [("Pending", "Pending"), ("Completed", "Completed"),
   ("Cancelled", "Cancelled"), ("Canceled", "Cancelled")]

/-- pandas `Series.isin(ids)` on a nullable integer cell. -/
def optMem (x : Option Int) (ids : List Int) : Bool :=
  match x with
  | none => false
  | some v => decide (v ∈ ids)

/-! ### The pipeline, one definition per source assignment.
Each stage is a function of the normalized input `Dataset`, composed in
exactly the source's statement order (lines 123–224). -/

/-- Line 123. -/
def providers_na (d : Dataset) : List ProviderRow :=
  drop_na_ids (fun r => r.Provider_ID) d.providers

/-- Line 124. -/
def receivers_na (d : Dataset) : List ReceiverRow :=
  drop_na_ids (fun r => r.Receiver_ID) d.receivers

/-- Lines 125–126: null `Food_ID` rows dropped, then null `Provider_ID`. -/
def food_na (d : Dataset) : List FoodRow :=
  drop_na_ids (fun r => r.Provider_ID) (drop_na_ids (fun r => r.Food_ID) d.food)

/-- Lines 127–129: null `Claim_ID`, then `Food_ID`, then `Receiver_ID`. -/
def claims_na (d : Dataset) : List ClaimRow :=
  drop_na_ids (fun r => r.Receiver_ID)
    (drop_na_ids (fun r => r.Food_ID) (drop_na_ids (fun r => r.Claim_ID) d.claims))

/-- Line 140 (kept part). -/
def providers_clean (d : Dataset) : List ProviderRow :=
  (drop_dupe_keys (fun r => r.Provider_ID) (providers_na d)).1

/-- Line 140 (reject artifact `providers_duplicate_provider_id.csv`). -/
def providers_dupe_rej (d : Dataset) : List ProviderRow :=
  (drop_dupe_keys (fun r => r.Provider_ID) (providers_na d)).2

/-- Line 141 (kept part). -/
def receivers_clean (d : Dataset) : List ReceiverRow :=
  (drop_dupe_keys (fun r => r.Receiver_ID) (receivers_na d)).1

/-- Line 141 (reject artifact `receivers_duplicate_receiver_id.csv`). -/
def receivers_dupe_rej (d : Dataset) : List ReceiverRow :=
  (drop_dupe_keys (fun r => r.Receiver_ID) (receivers_na d)).2

/-- Line 142 (kept part). -/
def food_dupe (d : Dataset) : List FoodRow :=
  (drop_dupe_keys (fun r => r.Food_ID) (food_na d)).1

/-- Line 142 (reject artifact `food_listings_duplicate_food_id.csv`). -/
def food_dupe_rej (d : Dataset) : List FoodRow :=
  (drop_dupe_keys (fun r => r.Food_ID) (food_na d)).2

/-- Line 143 (kept part). -/
def claims_dupe (d : Dataset) : List ClaimRow :=
  (drop_dupe_keys (fun r => r.Claim_ID) (claims_na d)).1

/-- Line 143 (reject artifact `claims_duplicate_claim_id.csv`). -/
def claims_dupe_rej (d : Dataset) : List ClaimRow :=
  (drop_dupe_keys (fun r => r.Claim_ID) (claims_na d)).2

/-- Line 146 (reject artifact `food_invalid_quantity.csv`). -/
def bad_qty (d : Dataset) : List FoodRow :=
  (food_dupe d).filter bad_qty_pred

/-- Line 150: `food = food[~food.index.isin(bad_qty.index)]`. -/
def food_qty (d : Dataset) : List FoodRow :=
  (food_dupe d).filter (fun r => !bad_qty_pred r)

/-- Line 151: `food["Quantity"] = food["Quantity"].astype(int)`. -/
def food_qty_int (d : Dataset) : List FoodRow :=
  (food_qty d).map (fun r =>
    { r with Quantity := r.Quantity.map (fun q => ((int_of_rat q : Int) : ℚ)) })

/-- Lines 177–179: vocabulary canonicalization of the three food
categorical columns. -/
def food_vocab (d : Dataset) : List FoodRow :=
  (food_qty_int d).map (fun r =>
    { r with
      Provider_Type := map_get PROVIDER_TYPE_MAP r.Provider_Type
      Food_Type := map_get FOOD_TYPE_MAP r.Food_Type
      Meal_Type := map_get MEAL_TYPE_MAP r.Meal_Type })

/-- Line 180: `claims["Status"] = claims["Status"].map(...)`. -/
def claims_vocab (d : Dataset) : List ClaimRow :=
  (claims_dupe d).map (fun r => { r with Status := map_get STATUS_MAP r.Status })

/-- Line 183: `set(providers["Provider_ID"].unique())`. -/
def valid_provider_ids (d : Dataset) : List Int :=
  (providers_clean d).filterMap (fun r => r.Provider_ID)

/-- Line 184. -/
def valid_receiver_ids (d : Dataset) : List Int :=
  (receivers_clean d).filterMap (fun r => r.Receiver_ID)

/-- Line 187 (reject artifact `food_bad_provider_fk.csv`). -/
def bad_food_fk (d : Dataset) : List FoodRow :=
  (food_vocab d).filter (fun r => !optMem r.Provider_ID (valid_provider_ids d))

/-- Line 191: food rows whose `Provider_ID` resolves. -/
def food_fk (d : Dataset) : List FoodRow :=
  (food_vocab d).filter (fun r => optMem r.Provider_ID (valid_provider_ids d))

/-- Line 193: computed from the post-FK-filtered food table (and, notably,
before the `Expiry_Date` filter of lines 207–211). -/
def valid_food_ids (d : Dataset) : List Int :=
  (food_fk d).filterMap (fun r => r.Food_ID)

/-- Lines 196–198 (reject artifact `claims_bad_fk.csv`): rejected when
either foreign key fails. -/
def bad_claims_fk (d : Dataset) : List ClaimRow :=
  (claims_vocab d).filter (fun c =>
    !optMem c.Food_ID (valid_food_ids d) || !optMem c.Receiver_ID (valid_receiver_ids d))

/-- Lines 202–204: claims with both foreign keys resolving. -/
def claims_fk (d : Dataset) : List ClaimRow :=
  (claims_vocab d).filter (fun c =>
    optMem c.Food_ID (valid_food_ids d) && optMem c.Receiver_ID (valid_receiver_ids d))

/-- Line 207 (reject artifact `food_bad_expiry.csv`). -/
def bad_expiry (d : Dataset) : List FoodRow :=
  (food_fk d).filter (fun r => r.Expiry_Date.isNone)

/-- Line 211: `food = food[food["Expiry_Date"].notna()]`. -/
def food_expiry (d : Dataset) : List FoodRow :=
  (food_fk d).filter (fun r => r.Expiry_Date.isSome)

/-- Line 213 (reject artifact `claims_bad_timestamp.csv`). -/
def bad_ts (d : Dataset) : List ClaimRow :=
  (claims_fk d).filter (fun c => c.Timestamp.isNone)

/-- Line 217: `claims = claims[claims["Timestamp"].notna()]`. -/
def claims_ts (d : Dataset) : List ClaimRow :=
  (claims_fk d).filter (fun c => c.Timestamp.isSome)

/-- `providers.set_index("Provider_ID")["City"]` lookup by `.map`
(line 222): the city of the first provider with the given id. -/
def lookupCity (ps : List ProviderRow) (pid : Option Int) : Option String :=
  (ps.find? (fun p => p.Provider_ID == pid)).map (fun p => p.City)

/-- Lines 220–224, one row of the `np.where` backfill.  The `isna()`
disjunct of the source condition is vacuous here: `Location` is a string
column after `clean_text`, so only the empty-string test can fire.  The
`none` branch of the lookup is unreachable in the pipeline because the
row's `Provider_ID` was FK-validated against `providers`. -/
def backfillLocation (ps : List ProviderRow) (r : FoodRow) : FoodRow :=
  if r.Location = "" then
    match lookupCity ps r.Provider_ID with
    | some c => { r with Location := c }
    | none => r
  else r

/-- The persisted Food_Listings table (lines 220–229). -/
def food_final (d : Dataset) : List FoodRow :=
  (food_expiry d).map (backfillLocation (providers_clean d))

/-- The persisted Claims table (line 230): unchanged after the
timestamp filter. -/
def claims_final (d : Dataset) : List ClaimRow :=
  claims_ts d

/-! ### Required-column checks and the whole run (fatal errors) -/

def expected_prov_cols : List String :=
  ["Provider_ID", "Name", "Type", "Address", "City", "Contact"]

def expected_recv_cols : List String :=
  ["Receiver_ID", "Name", "Type", "City", "Contact"]

def expected_food_cols : List String :=
  ["Food_ID", "Food_Name", "Quantity", "Expiry_Date", "Provider_ID",
   "Provider_Type", "Location", "Food_Type", "Meal_Type"]

def expected_claims_cols : List String :=
  ["Claim_ID", "Food_ID", "Receiver_ID", "Status", "Timestamp"]

/-- `set(expected) - set(df.columns)` after the column-name strip. -/
def missing_cols (expected given : List String) : List String :=
  expected.filter (fun c => !given.contains c)

/-- Raw input of a run: the four tables' column-name lists and rows. -/
structure RawInput where
  providersCols : List String
  receiversCols : List String
  foodCols : List String
  claimsCols : List String
  providers : List RawProviderRow
  receivers : List RawReceiverRow
  food : List RawFoodRow
  claims : List RawClaimRow

def normalizeData (inp : RawInput) : Dataset :=
  { providers := inp.providers.map normalizeProvider
    receivers := inp.receivers.map normalizeReceiver
    food := inp.food.map normalizeFood
    claims := inp.claims.map normalizeClaim }

/-- Everything a successful run writes: the four cleaned tables and the
per-rule reject artifacts. -/
structure Output where
  providersOut : List ProviderRow
  receiversOut : List ReceiverRow
  foodOut : List FoodRow
  claimsOut : List ClaimRow
  providersDupes : List ProviderRow
  receiversDupes : List ReceiverRow
  foodDupes : List FoodRow
  claimsDupes : List ClaimRow
  foodInvalidQty : List FoodRow
  foodBadFk : List FoodRow
  claimsBadFk : List ClaimRow
  foodBadExpiry : List FoodRow
  claimsBadTs : List ClaimRow
deriving DecidableEq

/-- The whole run.  The four required-column checks (lines 51–54, 65–68,
82–84, 101–103) each raise `ValueError` before anything is written; only
when all pass does the pipeline transform the data and write outputs. -/
def run_pipeline (inp : RawInput) : Except String Output :=
  if missing_cols expected_prov_cols (inp.providersCols.map stripStr) ≠ [] then
    .error "Providers: Missing columns"
  else if missing_cols expected_recv_cols (inp.receiversCols.map stripStr) ≠ [] then
    .error "Receivers: Missing columns"
  else if missing_cols expected_food_cols (inp.foodCols.map stripStr) ≠ [] then
    .error "Food Listings: Missing columns"
  else if missing_cols expected_claims_cols (inp.claimsCols.map stripStr) ≠ [] then
    .error "Claims: Missing columns"
  else
    let d := normalizeData inp
    .ok
      { providersOut := providers_clean d
        receiversOut := receivers_clean d
        foodOut := food_final d
        claimsOut := claims_final d
        providersDupes := providers_dupe_rej d
        receiversDupes := receivers_dupe_rej d
        foodDupes := food_dupe_rej d
        claimsDupes := claims_dupe_rej d
        foodInvalidQty := bad_qty d
        foodBadFk := bad_food_fk d
        claimsBadFk := bad_claims_fk d
        foodBadExpiry := bad_expiry d
        claimsBadTs := bad_ts d }

/-! ### Write Layer identifier auto-assignment (`app.py`) -/

/-- SQL `COALESCE(MAX(id), 0)`: 0 on an empty table, else the maximum. -/
def coalesce_max (ids : List Int) : Int :=
  match ids with
  | [] => 0
  | x :: xs => xs.foldl max x

/-- `app.py` lines 372–373: `SELECT COALESCE(MAX(Food_ID), 0)+1`. -/
def next_food_id (foodIds : List Int) : Int := coalesce_max foodIds + 1

/-- `app.py` lines 426–427: `SELECT COALESCE(MAX(Claim_ID), 0)+1`. -/
def next_claim_id (claimIds : List Int) : Int := coalesce_max claimIds + 1

/-! ## Lemmas about the embedded operations -/

theorem map_get_nil (x : String) : map_get [] x = x := rfl

theorem map_get_cons (k v : String) (m : List (String × String)) (x : String) :
    map_get ((k, v) :: m) x = if x = k then v else map_get m x := by
  by_cases h : x = k
  · subst h
    simp [map_get, List.find?]
  · have hk : (k == x) = false := by
      simp only [beq_eq_false_iff_ne, ne_eq]
      exact fun hkx => h hkx.symm
    simp [map_get, List.find?, hk, h]

/-- A vocabulary map all of whose entries map a key to itself never
changes its argument. -/
theorem map_get_of_id_entries (m : List (String × String))
    (hm : ∀ p ∈ m, p.2 = p.1) (x : String) : map_get m x = x := by
  induction m with
  | nil => rfl
  | cons p m ih =>
    obtain ⟨k, v⟩ := p
    rw [map_get_cons]
    split_ifs with h
    · have hv : v = k := hm (k, v) (List.mem_cons_self _ _)
      rw [hv, h]
    · exact ih (fun p hp => hm p (List.mem_cons_of_mem _ hp))

/-- Closed form of `STATUS_MAP.get(x, x)`. -/
theorem map_get_STATUS (x : String) :
    map_get STATUS_MAP x =
      if x = "Pending" then "Pending"
      else if x = "Completed" then "Completed"
      else if x = "Cancelled" then "Cancelled"
      else if x = "Canceled" then "Cancelled"
      else x := by
  simp only [STATUS_MAP, map_get_cons, map_get_nil]

theorem map_get_STATUS_idem (x : String) :
    map_get STATUS_MAP (map_get STATUS_MAP x) = map_get STATUS_MAP x := by
  rw [map_get_STATUS x]
  split_ifs with h1 h2 h3 h4
  · rfl
  · rfl
  · rfl
  · rfl
  · rw [map_get_STATUS x, if_neg h1, if_neg h2, if_neg h3, if_neg h4]

/-- Every element `foldl max` ranges over is bounded by the result. -/
theorem foldl_max_bound (xs : List Int) :
    ∀ x : Int, x ≤ xs.foldl max x ∧ ∀ i ∈ xs, i ≤ xs.foldl max x := by
  induction xs with
  | nil => intro x; exact ⟨le_refl x, by simp⟩
  | cons y ys ih =>
    intro x
    have h := ih (max x y)
    refine ⟨le_trans (le_max_left x y) h.1, ?_⟩
    intro i hi
    rcases List.mem_cons.mp hi with rfl | hmem
    · exact le_trans (le_max_right x i) h.1
    · exact h.2 i hmem

/-- The result of `foldl max` is the seed or one of the elements. -/
theorem foldl_max_mem (xs : List Int) :
    ∀ x : Int, xs.foldl max x = x ∨ xs.foldl max x ∈ xs := by
  induction xs with
  | nil => intro x; left; rfl
  | cons y ys ih =>
    intro x
    rcases ih (max x y) with h | h
    · rcases max_choice x y with hm | hm
      · left
        show ys.foldl max (max x y) = x
        rw [h, hm]
      · right
        show ys.foldl max (max x y) ∈ y :: ys
        rw [h, hm]
        exact List.mem_cons_self _ _
    · right
      exact List.mem_cons_of_mem _ h

/-- A Bool filter and its negation partition a list's length. -/
theorem length_filter_partition {α : Type} (p : α → Bool) (l : List α) :
    (l.filter p).length + (l.filter (fun x => !p x)).length = l.length := by
  induction l with
  | nil => rfl
  | cons x l ih =>
    cases h : p x <;> simp [List.filter_cons, h] <;> omega

/-- `drop_na_ids` and the silently dropped null-id rows partition the
input's length. -/
theorem length_na_partition {α : Type} (getId : α → Option Int) (l : List α) :
    (drop_na_ids getId l).length
      + (l.filter (fun r => (getId r).isNone)).length = l.length := by
  have hpt : l.filter (fun r => (getId r).isNone)
      = l.filter (fun r => !(getId r).isSome) :=
    List.filter_congr (fun x _ => by cases getId x <;> rfl)
  rw [drop_na_ids, hpt]
  exact length_filter_partition (fun r => (getId r).isSome) l

/-- The kept and rejected parts of `drop_dupe_keys_aux` partition the
input's length. -/
theorem drop_dupe_aux_length {α β : Type} [DecidableEq β] (key : α → β) :
    ∀ (seen : List β) (rows : List α),
      (drop_dupe_keys_aux key seen rows).1.length
        + (drop_dupe_keys_aux key seen rows).2.length = rows.length := by
  intro seen rows
  induction rows generalizing seen with
  | nil => rfl
  | cons x xs ih =>
    have h1 := ih seen
    have h2 := ih (key x :: seen)
    simp only [drop_dupe_keys_aux]
    by_cases h : key x ∈ seen
    · rw [if_pos h]
      simp only [List.length_cons]
      omega
    · rw [if_neg h]
      simp only [List.length_cons]
      omega

/-- A row whose key is unseen and has no earlier occurrence is kept by
`drop_dupe_keys_aux`. -/
theorem drop_dupe_aux_keeps_first {α β : Type} [DecidableEq β] (key : α → β) :
    ∀ (l₁ : List α) (seen : List β) (y : α) (l₂ : List α),
      key y ∉ seen → key y ∉ l₁.map key →
      y ∈ (drop_dupe_keys_aux key seen (l₁ ++ y :: l₂)).1 := by
  intro l₁
  induction l₁ with
  | nil =>
    intro seen y l₂ hseen _
    simp only [List.nil_append, drop_dupe_keys_aux]
    rw [if_neg hseen]
    exact List.mem_cons_self _ _
  | cons a l₁ ih =>
    intro seen y l₂ hseen hl
    have hne : key y ≠ key a := fun h => hl (by simp [h])
    have hl' : key y ∉ l₁.map key := fun h => hl (by simp [h])
    simp only [List.cons_append, drop_dupe_keys_aux]
    by_cases ha : key a ∈ seen
    · rw [if_pos ha]
      exact ih seen y l₂ hseen hl'
    · rw [if_neg ha]
      have hseen' : key y ∉ key a :: seen := by
        intro h
        rcases List.mem_cons.mp h with h | h
        · exact hne h
        · exact hseen h
      exact List.mem_cons_of_mem _ (ih (key a :: seen) y l₂ hseen' hl')

/-- A row whose key was already seen, or occurs earlier in the list, is
moved to the duplicate reject set by `drop_dupe_keys_aux`. -/
theorem drop_dupe_aux_rejects_later {α β : Type} [DecidableEq β] (key : α → β) :
    ∀ (l₁ : List α) (seen : List β) (y : α) (l₂ : List α),
      (key y ∈ seen ∨ key y ∈ l₁.map key) →
      y ∈ (drop_dupe_keys_aux key seen (l₁ ++ y :: l₂)).2 := by
  intro l₁
  induction l₁ with
  | nil =>
    intro seen y l₂ h
    rcases h with h | h
    · simp only [List.nil_append, drop_dupe_keys_aux]
      rw [if_pos h]
      exact List.mem_cons_self _ _
    · simp at h
  | cons a l₁ ih =>
    intro seen y l₂ h
    simp only [List.cons_append, drop_dupe_keys_aux]
    by_cases ha : key a ∈ seen
    · rw [if_pos ha]
      refine List.mem_cons_of_mem _ (ih seen y l₂ ?_)
      rcases h with h | h
      · exact Or.inl h
      · rw [List.map_cons] at h
        rcases List.mem_cons.mp h with h | h
        · exact Or.inl (h ▸ ha)
        · exact Or.inr h
    · rw [if_neg ha]
      refine ih (key a :: seen) y l₂ ?_
      rcases h with h | h
      · exact Or.inl (List.mem_cons_of_mem _ h)
      · rw [List.map_cons] at h
        rcases List.mem_cons.mp h with h | h
        · exact Or.inl (by rw [h]; exact List.mem_cons_self _ _)
        · exact Or.inr h

/-! ## Claims -/

/-- C4: in `drop_dupe_keys`, among rows sharing a primary-key value the
first occurrence in original row order is kept in the accepted table,
and every later occurrence is moved to the duplicate-key reject set.
The row of interest is exposed by the decomposition `l₁ ++ y :: l₂`: it
is a first occurrence when its key does not appear in `l₁`, a later
occurrence when it does. -/
theorem dupe_keys_first_kept_later_rejected {α β : Type} [DecidableEq β]
    (key : α → β) (l₁ : List α) (y : α) (l₂ : List α) :
    (key y ∉ l₁.map key → y ∈ (drop_dupe_keys key (l₁ ++ y :: l₂)).1) ∧
    (key y ∈ l₁.map key → y ∈ (drop_dupe_keys key (l₁ ++ y :: l₂)).2) :=
  ⟨fun h => drop_dupe_aux_keeps_first key l₁ [] y l₂ (by simp) h,
   fun h => drop_dupe_aux_rejects_later key l₁ [] y l₂ (Or.inr h)⟩

/-- First Providers row with `Provider_ID = 7`. -/
def exP7a : ProviderRow :=
  { Provider_ID := some 7, Name := "First Shop", Type_ := "Restaurant",
    Address := "1 Main St", City := "Springfield", Contact := "111" }

/-- Second Providers row with the same `Provider_ID = 7`. -/
def exP7b : ProviderRow :=
  { Provider_ID := some 7, Name := "Second Shop", Type_ := "Supermarket",
    Address := "2 Main St", City := "Shelbyville", Contact := "222" }

/-- Witness for C4: of two Providers rows sharing `Provider_ID = 7`, the
first is kept and the second lands in the duplicate-key reject set. -/
theorem dupe_keys_first_kept_later_rejected_witness :
    exP7a ∈ (drop_dupe_keys (fun r => r.Provider_ID) ([] ++ exP7a :: [exP7b])).1 ∧
    exP7b ∈ (drop_dupe_keys (fun r => r.Provider_ID) ([exP7a] ++ exP7b :: [])).2 :=
  ⟨(dupe_keys_first_kept_later_rejected (fun r => r.Provider_ID) [] exP7a [exP7b]).1
      (by simp),
   (dupe_keys_first_kept_later_rejected (fun r => r.Provider_ID) [exP7a] exP7b []).2
      (by decide)⟩

/-- C6: a Claim row lands in the bad-FK reject set iff it survived the
earlier per-table stages and its `Food_ID` is missing from the
post-FK-filtered food ID set (`valid_food_ids`, computed after
FoodListings were filtered against Providers' surviving IDs) OR its
`Receiver_ID` is missing from the Receivers' surviving ID set; it is
kept iff both foreign keys resolve. -/
theorem claims_fk_reject_iff (d : Dataset) (c : ClaimRow) :
    (c ∈ bad_claims_fk d ↔
      c ∈ claims_vocab d ∧
        (optMem c.Food_ID (valid_food_ids d) = false ∨
         optMem c.Receiver_ID (valid_receiver_ids d) = false)) ∧
    (c ∈ claims_fk d ↔
      c ∈ claims_vocab d ∧
        optMem c.Food_ID (valid_food_ids d) = true ∧
        optMem c.Receiver_ID (valid_receiver_ids d) = true) := by
  constructor
  · rw [bad_claims_fk, List.mem_filter]
    simp
  · rw [claims_fk, List.mem_filter]
    simp

/-- C3: the Location backfill leaves a row with non-empty Location
unchanged; it rewrites exactly the Location field of a row with empty
Location to the City of its referenced Provider; and for every food row
reaching the backfill stage the Provider lookup succeeds, because the
row's `Provider_ID` was already FK-validated. -/
theorem location_backfill_spec :
    (∀ (ps : List ProviderRow) (r : FoodRow),
        r.Location ≠ "" → backfillLocation ps r = r) ∧
    (∀ (ps : List ProviderRow) (r : FoodRow) (c : String),
        r.Location = "" → lookupCity ps r.Provider_ID = some c →
        backfillLocation ps r = { r with Location := c }) ∧
    (∀ (d : Dataset) (r : FoodRow), r ∈ food_expiry d →
        (lookupCity (providers_clean d) r.Provider_ID).isSome) := by
  refine ⟨?_, ?_, ?_⟩
  · intro ps r h
    unfold backfillLocation
    rw [if_neg h]
  · intro ps r c h hl
    unfold backfillLocation
    rw [if_pos h, hl]
  · intro d r hr
    have hr' : r ∈ food_fk d := (List.mem_filter.mp hr).1
    have hfk : optMem r.Provider_ID (valid_provider_ids d) = true :=
      (List.mem_filter.mp hr').2
    cases hpid : r.Provider_ID with
    | none => rw [hpid] at hfk; simp [optMem] at hfk
    | some v =>
      rw [hpid] at hfk
      have hv : v ∈ valid_provider_ids d := by simpa [optMem] using hfk
      obtain ⟨p, hp, hpv⟩ := List.mem_filterMap.mp hv
      rw [lookupCity]
      have hfind :
          ((providers_clean d).find? (fun p => p.Provider_ID == some v)).isSome := by
        rw [List.find?_isSome]
        exact ⟨p, hp, by simp [hpv]⟩
      simpa using hfind

/-- Provider with City "Springfield". -/
def exSpr : ProviderRow :=
  { Provider_ID := some 1, Name := "Springfield Deli", Type_ := "Restaurant",
    Address := "3 Oak St", City := "Springfield", Contact := "333" }

/-- FoodListing with empty Location referencing `exSpr`. -/
def exEmptyLocRow : FoodRow :=
  { Food_ID := some 1, Food_Name := "Rice", Quantity := some 5,
    Expiry_Date := some 10, Provider_ID := some 1,
    Provider_Type := "Restaurant", Location := "",
    Food_Type := "Vegan", Meal_Type := "Lunch" }

/-- FoodListing with a non-empty Location. -/
def exLocRow : FoodRow :=
  { Food_ID := some 2, Food_Name := "Beans", Quantity := some 3,
    Expiry_Date := some 10, Provider_ID := some 1,
    Provider_Type := "Restaurant", Location := "Downtown",
    Food_Type := "Vegan", Meal_Type := "Dinner" }

/-- Dataset exercising the backfill. -/
def exSprData : Dataset :=
  { providers := [exSpr], receivers := [], food := [exEmptyLocRow], claims := [] }

/-- Witness for C3: a non-empty Location is untouched; an empty Location
whose Provider has City "Springfield" is rewritten to "Springfield"; and
inside the pipeline the lookup for a surviving row succeeds. -/
theorem location_backfill_spec_witness :
    backfillLocation [exSpr] exLocRow = exLocRow ∧
    backfillLocation [exSpr] exEmptyLocRow =
      { exEmptyLocRow with Location := "Springfield" } ∧
    (lookupCity (providers_clean exSprData) exEmptyLocRow.Provider_ID).isSome :=
  ⟨location_backfill_spec.1 [exSpr] exLocRow (by decide),
   location_backfill_spec.2.1 [exSpr] exEmptyLocRow "Springfield" rfl rfl,
   location_backfill_spec.2.2 exSprData exEmptyLocRow (by decide)⟩

/-- C10: the invalid-quantity rule rejects exactly the rows whose
Quantity is missing or strictly negative; a row whose Quantity is a
non-negative fraction is accepted; `astype(int)` truncates toward zero
(which on non-negative values is the floor); and every row surviving
the quantity stage carries a non-negative integral Quantity. -/
theorem quantity_fractional_accepted_truncated :
    (∀ r : FoodRow, bad_qty_pred r = true ↔
        r.Quantity = none ∨ ∃ q, r.Quantity = some q ∧ q < 0) ∧
    (∀ (d : Dataset) (r : FoodRow) (q : ℚ),
        r ∈ food_dupe d → r.Quantity = some q → 0 ≤ q → r ∈ food_qty d) ∧
    (∀ q : ℚ, 0 ≤ q → int_of_rat q = ⌊q⌋) ∧
    (∀ (d : Dataset) (r : FoodRow), r ∈ food_qty_int d →
        ∃ n : Int, 0 ≤ n ∧ r.Quantity = some (n : ℚ)) := by
  have hfloor : ∀ q : ℚ, 0 ≤ q → int_of_rat q = ⌊q⌋ := by
    intro q h
    rw [int_of_rat,
      Int.tdiv_eq_ediv (Rat.num_nonneg.mpr h) (by positivity), Rat.floor_def]
  refine ⟨?_, ?_, hfloor, ?_⟩
  · intro r
    cases hq : r.Quantity with
    | none => simp [bad_qty_pred, hq]
    | some q => simp [bad_qty_pred, hq]
  · intro d r q hmem hq h0
    rw [food_qty, List.mem_filter]
    refine ⟨hmem, ?_⟩
    simp [bad_qty_pred, hq, not_lt.mpr h0]
  · intro d r hmem
    rw [food_qty_int] at hmem
    obtain ⟨r₀, hr₀, rfl⟩ := List.mem_map.mp hmem
    have hbad : bad_qty_pred r₀ = false := by
      simpa using (List.mem_filter.mp hr₀).2
    cases hq : r₀.Quantity with
    | none => simp [bad_qty_pred, hq] at hbad
    | some q =>
      have h0 : 0 ≤ q := by
        have := hbad
        simp [bad_qty_pred, hq] at this
        exact this
      refine ⟨int_of_rat q, ?_, ?_⟩
      · rw [hfloor q h0]
        rw [Int.le_floor]
        exact_mod_cast h0
      · simp [hq]

/-- FoodListing with the fractional Quantity 5/2. -/
def exHalfRow : FoodRow :=
  { Food_ID := some 3, Food_Name := "Milk", Quantity := some (mkRat 5 2),
    Expiry_Date := some 10, Provider_ID := some 1,
    Provider_Type := "Restaurant", Location := "Market",
    Food_Type := "Vegan", Meal_Type := "Breakfast" }

/-- Dataset exercising the quantity stage. -/
def exQtyData : Dataset :=
  { providers := [exSpr], receivers := [], food := [exHalfRow], claims := [] }

/-- Witness for C10: the Quantity-2.5 row is accepted (not rejected by
the invalid-quantity rule), the truncation agrees with the floor at 5/2,
the persisted Quantity is the non-negative integer 2. -/
theorem quantity_fractional_accepted_truncated_witness :
    exHalfRow ∈ food_qty exQtyData ∧
    int_of_rat (mkRat 5 2) = ⌊mkRat 5 2⌋ ∧
    (∃ n : Int, 0 ≤ n ∧
        ({ exHalfRow with Quantity := some 2 } : FoodRow).Quantity = some (n : ℚ)) ∧
    food_qty_int exQtyData = [{ exHalfRow with Quantity := some 2 }] :=
  ⟨quantity_fractional_accepted_truncated.2.1 exQtyData exHalfRow (mkRat 5 2)
      (by decide) rfl (by decide),
   quantity_fractional_accepted_truncated.2.2.1 (mkRat 5 2) (by decide),
   quantity_fractional_accepted_truncated.2.2.2 exQtyData
      { exHalfRow with Quantity := some 2 } (by decide),
   by decide⟩

/-- C5: for each of the four vocabulary maps, `map_get` returns the
canonical spelling when the value matches a (first) known key and
returns the value unchanged otherwise (cons/nil characterization), and
canonicalization is idempotent: applying the map twice yields the same
result as applying it once.  `"Canceled"` is unified to `"Cancelled"`. -/
theorem map_get_canonical_idempotent :
    (∀ (k v : String) (m : List (String × String)) (x : String),
        map_get ((k, v) :: m) x = if x = k then v else map_get m x) ∧
    (∀ x : String, map_get [] x = x) ∧
    (∀ x : String,
        map_get PROVIDER_TYPE_MAP (map_get PROVIDER_TYPE_MAP x) =
          map_get PROVIDER_TYPE_MAP x) ∧
    (∀ x : String,
        map_get FOOD_TYPE_MAP (map_get FOOD_TYPE_MAP x) = map_get FOOD_TYPE_MAP x) ∧
    (∀ x : String,
        map_get MEAL_TYPE_MAP (map_get MEAL_TYPE_MAP x) = map_get MEAL_TYPE_MAP x) ∧
    (∀ x : String,
        map_get STATUS_MAP (map_get STATUS_MAP x) = map_get STATUS_MAP x) ∧
    map_get STATUS_MAP "Canceled" = "Cancelled" := by
  have hprov : ∀ x, map_get PROVIDER_TYPE_MAP x = x :=
    map_get_of_id_entries PROVIDER_TYPE_MAP (by decide)
  have hfood : ∀ x, map_get FOOD_TYPE_MAP x = x :=
    map_get_of_id_entries FOOD_TYPE_MAP (by decide)
  have hmeal : ∀ x, map_get MEAL_TYPE_MAP x = x :=
    map_get_of_id_entries MEAL_TYPE_MAP (by decide)
  refine ⟨map_get_cons, map_get_nil, ?_, ?_, ?_, map_get_STATUS_idem, rfl⟩
  · intro x; rw [hprov x, hprov x]
  · intro x; rw [hfood x, hfood x]
  · intro x; rw [hmeal x, hmeal x]

/-- C8: the Write Layer auto-assigns identifiers as one greater than the
current maximum: `next_food_id` / `next_claim_id` return 1 on an empty
table, and `m + 1` where `m` is the table's maximum identifier
otherwise. -/
theorem next_id_max_plus_one (ids : List Int) :
    (ids = [] → next_food_id ids = 1 ∧ next_claim_id ids = 1) ∧
    (ids ≠ [] → ∃ m, m ∈ ids ∧ (∀ i ∈ ids, i ≤ m) ∧
        next_food_id ids = m + 1 ∧ next_claim_id ids = m + 1) := by
  constructor
  · rintro rfl
    exact ⟨rfl, rfl⟩
  · intro h
    refine ⟨coalesce_max ids, ?_, ?_, rfl, rfl⟩
    · cases ids with
      | nil => exact absurd rfl h
      | cons x xs =>
        rcases foldl_max_mem xs x with h1 | h1
        · show xs.foldl max x ∈ x :: xs
          rw [h1]
          exact List.mem_cons_self _ _
        · exact List.mem_cons_of_mem _ h1
    · intro i hi
      cases ids with
      | nil => simp at hi
      | cons x xs =>
        rcases List.mem_cons.mp hi with rfl | hmem
        · exact (foldl_max_bound xs i).1
        · exact (foldl_max_bound xs x).2 i hmem

/-- Witness for C8 at the empty table and at the table `[3, 7, 5]`. -/
theorem next_id_max_plus_one_witness :
    (next_food_id [] = 1 ∧ next_claim_id [] = 1) ∧
    (∃ m, m ∈ [(3 : Int), 7, 5] ∧ (∀ i ∈ [(3 : Int), 7, 5], i ≤ m) ∧
        next_food_id [3, 7, 5] = m + 1 ∧ next_claim_id [3, 7, 5] = m + 1) :=
  ⟨(next_id_max_plus_one []).1 rfl,
   (next_id_max_plus_one [3, 7, 5]).2 (by decide)⟩

/-- C9: `clean_text` turns a missing cell into the literal string "nan"
("Nan" under title-casing), so normalized text columns are never null;
in particular the Location emptiness test of the backfill never matches
an originally-missing Location. -/
theorem clean_text_missing_becomes_nan :
    clean_text none false = "nan" ∧
    clean_text none true = "Nan" ∧
    (∀ b : Bool, clean_text none b ≠ "") ∧
    (∀ raw : RawFoodRow, (normalizeFood raw).Location = clean_text raw.Location true) ∧
    (∀ (ps : List ProviderRow) (r : FoodRow),
        r.Location = clean_text none true → backfillLocation ps r = r) := by
  refine ⟨rfl, rfl, ?_, fun raw => rfl, ?_⟩
  · intro b
    cases b <;> decide
  · intro ps r h
    have h' : r.Location = "Nan" := h
    unfold backfillLocation
    rw [h', if_neg (by decide)]

/-- A concrete FoodListing whose Location came from a missing cell. -/
def exNanRow : FoodRow :=
  { Food_ID := some 1, Food_Name := "Bread", Quantity := some 1,
    Expiry_Date := some 0, Provider_ID := some 1,
    Provider_Type := "Restaurant", Location := clean_text none true,
    Food_Type := "Vegan", Meal_Type := "Lunch" }

/-- Witness for C9: the backfill leaves a row whose Location was
originally missing (now "Nan") unchanged. -/
theorem clean_text_missing_becomes_nan_witness :
    backfillLocation [] exNanRow = exNanRow :=
  clean_text_missing_becomes_nan.2.2.2.2 [] exNanRow rfl

/-- Provider 1 for the FK/expiry-ordering input. -/
def exC1Provider : ProviderRow :=
  { Provider_ID := some 1, Name := "Corner Deli", Type_ := "Restaurant",
    Address := "4 Elm St", City := "Town", Contact := "444" }

/-- Receiver 1 for the FK/expiry-ordering input. -/
def exC1Receiver : ReceiverRow :=
  { Receiver_ID := some 1, Name := "Shelter", Type_ := "Ngo",
    City := "Town", Contact := "555" }

/-- A FoodListing that passes quantity and FK validation but has a null
(unparseable) `Expiry_Date`. -/
def exC1Food : FoodRow :=
  { Food_ID := some 1, Food_Name := "Rice", Quantity := some 5,
    Expiry_Date := none, Provider_ID := some 1,
    Provider_Type := "Restaurant", Location := "Town",
    Food_Type := "Vegan", Meal_Type := "Lunch" }

/-- A Claim referencing the bad-expiry FoodListing above. -/
def exC1Claim : ClaimRow :=
  { Claim_ID := some 1, Food_ID := some 1, Receiver_ID := some 1,
    Status := "Pending", Timestamp := some 100 }

/-- Input on which the pipeline persists a Claim whose `Food_ID` does
not resolve in the persisted FoodListings. -/
def exC1Data : Dataset :=
  { providers := [exC1Provider], receivers := [exC1Receiver],
    food := [exC1Food], claims := [exC1Claim] }

/-- C1 (bug evaluation): on `exC1Data` the pipeline persists the claim
(it was FK-checked against the pre-expiry-filter food ID set) but drops
its food row afterwards in the `Expiry_Date` filter, so the persisted
Claims table holds a `Food_ID` absent from the persisted FoodListings'
identifier set — the invariant the spec states does not hold of the
cleaned output (and the code's own SQLite FK constraints, enforced via
`PRAGMA foreign_keys = ON`, would reject this very output at load time). -/
theorem claim_fk_broken_by_expiry_filter :
    claims_final exC1Data = [exC1Claim] ∧
    food_final exC1Data = [] ∧
    ∀ c ∈ claims_final exC1Data,
      optMem c.Food_ID ((food_final exC1Data).filterMap (fun r => r.Food_ID))
        = false := by
  refine ⟨by decide, by decide, by decide⟩

/-- A Providers row with a null primary key: it is silently dropped. -/
def exNullIdProvider : ProviderRow :=
  { Provider_ID := none, Name := "Ghost Shop", Type_ := "Restaurant",
    Address := "5 Fir St", City := "Town", Contact := "666" }

/-- Input exhibiting a silently discarded row. -/
def exC2Data : Dataset :=
  { providers := [exNullIdProvider], receivers := [], food := [], claims := [] }

/-- C2 counterexample: with one null-`Provider_ID` row the Providers
counts do not reconcile as `len(input) = len(persisted) + sum(rejects)`
— the row reaches no reject artifact (the duplicate-key set is the only
Providers reject artifact, and `drop_na_ids` only prints a count). -/
theorem partition_counts_counterexample :
    ¬ (exC2Data.providers.length =
        (providers_clean exC2Data).length + (providers_dupe_rej exC2Data).length) := by
  decide

/-- C2 (amended): per table, every input row is either persisted, in
exactly one reject artifact, or silently dropped by `drop_na_ids` for a
null identifier; the counts reconcile only after adding the null-id
drops, which are counted in a console warning but written to no
artifact. -/
theorem partition_counts_with_null_id_drops (d : Dataset) :
    d.providers.length =
      (providers_clean d).length + (providers_dupe_rej d).length
        + (d.providers.filter (fun r => r.Provider_ID.isNone)).length ∧
    d.receivers.length =
      (receivers_clean d).length + (receivers_dupe_rej d).length
        + (d.receivers.filter (fun r => r.Receiver_ID.isNone)).length ∧
    d.food.length =
      (food_final d).length + (food_dupe_rej d).length + (bad_qty d).length
        + (bad_food_fk d).length + (bad_expiry d).length
        + (d.food.filter (fun r => r.Food_ID.isNone)).length
        + ((drop_na_ids (fun r => r.Food_ID) d.food).filter
            (fun r => r.Provider_ID.isNone)).length ∧
    d.claims.length =
      (claims_final d).length + (claims_dupe_rej d).length
        + (bad_claims_fk d).length + (bad_ts d).length
        + (d.claims.filter (fun r => r.Claim_ID.isNone)).length
        + ((drop_na_ids (fun r => r.Claim_ID) d.claims).filter
            (fun r => r.Food_ID.isNone)).length
        + ((drop_na_ids (fun r => r.Food_ID)
              (drop_na_ids (fun r => r.Claim_ID) d.claims)).filter
            (fun r => r.Receiver_ID.isNone)).length := by
  refine ⟨?_, ?_, ?_, ?_⟩
  · have h1 : (providers_na d).length
        + (d.providers.filter (fun r => r.Provider_ID.isNone)).length
        = d.providers.length :=
      length_na_partition (fun r : ProviderRow => r.Provider_ID) d.providers
    have h2 : (providers_clean d).length + (providers_dupe_rej d).length
        = (providers_na d).length :=
      drop_dupe_aux_length (fun r : ProviderRow => r.Provider_ID) [] (providers_na d)
    omega
  · have h1 : (receivers_na d).length
        + (d.receivers.filter (fun r => r.Receiver_ID.isNone)).length
        = d.receivers.length :=
      length_na_partition (fun r : ReceiverRow => r.Receiver_ID) d.receivers
    have h2 : (receivers_clean d).length + (receivers_dupe_rej d).length
        = (receivers_na d).length :=
      drop_dupe_aux_length (fun r : ReceiverRow => r.Receiver_ID) [] (receivers_na d)
    omega
  · have h1 : (drop_na_ids (fun r : FoodRow => r.Food_ID) d.food).length
        + (d.food.filter (fun r => r.Food_ID.isNone)).length = d.food.length :=
      length_na_partition (fun r : FoodRow => r.Food_ID) d.food
    have h2 : (food_na d).length
        + ((drop_na_ids (fun r : FoodRow => r.Food_ID) d.food).filter
            (fun r => r.Provider_ID.isNone)).length
        = (drop_na_ids (fun r : FoodRow => r.Food_ID) d.food).length :=
      length_na_partition (fun r : FoodRow => r.Provider_ID)
        (drop_na_ids (fun r => r.Food_ID) d.food)
    have h3 : (food_dupe d).length + (food_dupe_rej d).length = (food_na d).length :=
      drop_dupe_aux_length (fun r : FoodRow => r.Food_ID) [] (food_na d)
    have h4 : (bad_qty d).length + (food_qty d).length = (food_dupe d).length :=
      length_filter_partition bad_qty_pred (food_dupe d)
    have h5 : (food_qty_int d).length = (food_qty d).length :=
      List.length_map _ _
    have h6 : (food_vocab d).length = (food_qty_int d).length :=
      List.length_map _ _
    have h7 : (food_fk d).length + (bad_food_fk d).length = (food_vocab d).length :=
      length_filter_partition
        (fun r : FoodRow => optMem r.Provider_ID (valid_provider_ids d))
        (food_vocab d)
    have h8 : (food_expiry d).length + (bad_expiry d).length
        = (food_fk d).length := by
      have hpt : bad_expiry d
          = (food_fk d).filter (fun r => !r.Expiry_Date.isSome) := by
        rw [bad_expiry]
        exact List.filter_congr (fun x _ => by cases x.Expiry_Date <;> rfl)
      rw [hpt]
      exact length_filter_partition (fun r : FoodRow => r.Expiry_Date.isSome)
        (food_fk d)
    have h9 : (food_final d).length = (food_expiry d).length :=
      List.length_map _ _
    omega
  · have h1 : (drop_na_ids (fun r : ClaimRow => r.Claim_ID) d.claims).length
        + (d.claims.filter (fun r => r.Claim_ID.isNone)).length
        = d.claims.length :=
      length_na_partition (fun r : ClaimRow => r.Claim_ID) d.claims
    have h2 : (drop_na_ids (fun r : ClaimRow => r.Food_ID)
          (drop_na_ids (fun r : ClaimRow => r.Claim_ID) d.claims)).length
        + ((drop_na_ids (fun r : ClaimRow => r.Claim_ID) d.claims).filter
            (fun r => r.Food_ID.isNone)).length
        = (drop_na_ids (fun r : ClaimRow => r.Claim_ID) d.claims).length :=
      length_na_partition (fun r : ClaimRow => r.Food_ID)
        (drop_na_ids (fun r => r.Claim_ID) d.claims)
    have h3 : (claims_na d).length
        + ((drop_na_ids (fun r : ClaimRow => r.Food_ID)
              (drop_na_ids (fun r : ClaimRow => r.Claim_ID) d.claims)).filter
            (fun r => r.Receiver_ID.isNone)).length
        = (drop_na_ids (fun r : ClaimRow => r.Food_ID)
            (drop_na_ids (fun r : ClaimRow => r.Claim_ID) d.claims)).length :=
      length_na_partition (fun r : ClaimRow => r.Receiver_ID)
        (drop_na_ids (fun r => r.Food_ID) (drop_na_ids (fun r => r.Claim_ID) d.claims))
    have h4 : (claims_dupe d).length + (claims_dupe_rej d).length
        = (claims_na d).length :=
      drop_dupe_aux_length (fun r : ClaimRow => r.Claim_ID) [] (claims_na d)
    have h5 : (claims_vocab d).length = (claims_dupe d).length :=
      List.length_map _ _
    have h6 : (claims_fk d).length + (bad_claims_fk d).length
        = (claims_vocab d).length := by
      have hpt : bad_claims_fk d
          = (claims_vocab d).filter (fun c =>
              !(optMem c.Food_ID (valid_food_ids d)
                && optMem c.Receiver_ID (valid_receiver_ids d))) := by
        rw [bad_claims_fk]
        exact List.filter_congr (fun x _ => by
          cases optMem x.Food_ID (valid_food_ids d) <;>
            cases optMem x.Receiver_ID (valid_receiver_ids d) <;> rfl)
      rw [hpt]
      exact length_filter_partition (fun c : ClaimRow =>
        optMem c.Food_ID (valid_food_ids d)
          && optMem c.Receiver_ID (valid_receiver_ids d)) (claims_vocab d)
    have h7 : (claims_ts d).length + (bad_ts d).length = (claims_fk d).length := by
      have hpt : bad_ts d
          = (claims_fk d).filter (fun c => !c.Timestamp.isSome) := by
        rw [bad_ts]
        exact List.filter_congr (fun x _ => by cases x.Timestamp <;> rfl)
      rw [hpt]
      exact length_filter_partition (fun c : ClaimRow => c.Timestamp.isSome)
        (claims_fk d)
    have h8 : (claims_final d).length = (claims_ts d).length := rfl
    omega

/-- C7: a required column absent from any input table (after the
column-name strip) makes the run abort with an error: no `Output` — no
cleaned tables, no reject artifacts, no store — is produced.  The first
conjunct characterizes the emptiness test of `missing_cols`. -/
theorem missing_columns_aborts :
    (∀ expected given : List String,
        missing_cols expected given ≠ [] ↔ ∃ c ∈ expected, c ∉ given) ∧
    (∀ inp : RawInput,
      (missing_cols expected_prov_cols (inp.providersCols.map stripStr) ≠ [] ∨
       missing_cols expected_recv_cols (inp.receiversCols.map stripStr) ≠ [] ∨
       missing_cols expected_food_cols (inp.foodCols.map stripStr) ≠ [] ∨
       missing_cols expected_claims_cols (inp.claimsCols.map stripStr) ≠ []) →
      ∃ e, run_pipeline inp = .error e) := by
  constructor
  · intro expected given
    rw [missing_cols]
    constructor
    · intro h
      obtain ⟨c, hc⟩ := List.exists_mem_of_ne_nil _ h
      have := List.mem_filter.mp hc
      exact ⟨c, this.1, by simpa using this.2⟩
    · rintro ⟨c, hc, hnc⟩
      exact List.ne_nil_of_mem (List.mem_filter.mpr ⟨hc, by simpa using hnc⟩)
  · intro inp h
    unfold run_pipeline
    split_ifs with h1 h2 h3 h4
    · exact ⟨_, rfl⟩
    · exact ⟨_, rfl⟩
    · exact ⟨_, rfl⟩
    · exact ⟨_, rfl⟩
    · rcases h with h | h | h | h
      · exact absurd h h1
      · exact absurd h h2
      · exact absurd h h3
      · exact absurd h h4

/-- Raw input whose Providers table lacks the required "City" column. -/
def exBadInput : RawInput :=
  { providersCols := ["Provider_ID", "Name", "Type", "Address", "Contact"],
    receiversCols := expected_recv_cols,
    foodCols := expected_food_cols,
    claimsCols := expected_claims_cols,
    providers := [], receivers := [], food := [], claims := [] }

/-- Witness for C7: the run on `exBadInput` ends in an error. -/
theorem missing_columns_aborts_witness :
    ∃ e, run_pipeline exBadInput = .error e :=
  missing_columns_aborts.2 exBadInput (Or.inl (by decide))

end FoodWaste
